import Mathlib

/-!
Verification of the auxiliary-value probe `getauxval_wrapper`
(src/c/getauxval-wrapper.c) against its natural-language specification.

The C function probes the weakly-linked platform facility `getauxval`.
We embed it shallowly:

* the weak symbol is an `Option Facility`: `none` when the symbol did not
  resolve at load time, `some f` when it did;
* a `Facility` is the underlying facility's observable behaviour: the value
  it returns for a key, and the errno value it leaves after being invoked
  with a key, as a function of the errno value at the moment of the call
  (glibc's getauxval sets errno to ENOENT on a missing key and otherwise
  leaves it alone, but the wrapper must be correct for any behaviour, so we
  keep it abstract);
* the mutable environment of one call is a `WrapperState`: the process-wide
  error indicator `errno` and the contents `result` of the caller-supplied
  output location `*result`;
* the wrapper returns the `int32_t` code as an `Int`, the final state, and
  the number of times the facility was invoked during the call (0 or 1),
  so that "does not invoke the facility" is expressible.
-/

/-- The errno value for "entry not found", `ENOENT` (2 on Linux). -/
def ENOENT : Nat := 2

/-- Observable behaviour of the optional platform facility `getauxval`:
`value key` is the unsigned long it returns for `key`, and
`errnoAfter key e` is the errno value it leaves when invoked with `key`
while errno holds `e`. -/
structure Facility where
  value : Nat → Nat
  errnoAfter : Nat → Nat → Nat

/-- The mutable state a single call of the wrapper can read or write:
the process-wide error indicator and the contents of the caller-supplied
output location. -/
structure WrapperState where
  errno : Nat
  result : Nat
deriving DecidableEq

/-- Shallow embedding of `getauxval_wrapper` from src/c/getauxval-wrapper.c.

    int32_t getauxval_wrapper(unsigned long key, unsigned long *result) {
        if (getauxval == NULL) { return -1; }
        unsigned long auxval = getauxval(key);
        if (errno == ENOENT) { errno = 0; return 0; }
        else if (errno != 0) { errno = 0; return -2; }
        *result = auxval;
        return 1;
    }

The third component of the returned triple counts invocations of the
facility. In the success branch the code leaves errno untouched, so the
embedding keeps the post-call errno value `e` there. -/
def getauxval_wrapper (sym : Option Facility) (key : Nat) (s : WrapperState) :
    Int × WrapperState × Nat :=
  match sym with
  | none => (-1, s, 0)
  | some f =>
      let auxval := f.value key
      let e := f.errnoAfter key s.errno
      if e = ENOENT then
        (0, ⟨0, s.result⟩, 1)
      else if e ≠ 0 then
        (-2, ⟨0, s.result⟩, 1)
      else
        (1, ⟨e, auxval⟩, 1)

/-! ### Branch lemmas (shared helpers) -/

/-- Absent facility: the wrapper returns -1, the state is untouched and the
facility is not invoked. -/
theorem wrapper_none_eq (key : Nat) (s : WrapperState) :
    getauxval_wrapper none key s = (-1, s, 0) := rfl

/-- Present facility, post-call errno = ENOENT: the wrapper returns 0,
clears errno, leaves the output location alone. -/
theorem wrapper_enoent_eq (f : Facility) (key : Nat) (s : WrapperState)
    (h : f.errnoAfter key s.errno = ENOENT) :
    getauxval_wrapper (some f) key s = (0, ⟨0, s.result⟩, 1) := by
  simp [getauxval_wrapper, h]

/-- Present facility, post-call errno nonzero and not ENOENT: the wrapper
returns -2, clears errno, leaves the output location alone. -/
theorem wrapper_err_eq (f : Facility) (key : Nat) (s : WrapperState)
    (hne : f.errnoAfter key s.errno ≠ ENOENT)
    (h0 : f.errnoAfter key s.errno ≠ 0) :
    getauxval_wrapper (some f) key s = (-2, ⟨0, s.result⟩, 1) := by
  simp [getauxval_wrapper, hne, h0]

/-- Present facility, post-call errno = 0: the wrapper returns 1 and writes
the facility's value to the output location. -/
theorem wrapper_ok_eq (f : Facility) (key : Nat) (s : WrapperState)
    (h : f.errnoAfter key s.errno = 0) :
    getauxval_wrapper (some f) key s = (1, ⟨0, f.value key⟩, 1) := by
  have hne : f.errnoAfter key s.errno ≠ ENOENT := by
    rw [h]; decide
  simp [getauxval_wrapper, hne, h, ENOENT]

/-! ### Claim theorems -/

/-- C1 (counterexample): the claim "errno equals 0 after every branch,
including facility-unavailable" is false: with the facility absent and
errno 5 at entry, errno is still 5 after the wrapper returns. -/
theorem errno_not_always_cleared :
    ((getauxval_wrapper none 0 ⟨5, 0⟩).2.1).errno ≠ 0 := by decide

/-- C1 (amended): after any call with the facility present, errno equals 0
regardless of which of the three branches was taken; when the facility is
absent, errno is left exactly at its entry value. -/
theorem errno_cleared_when_present :
    ∀ (f : Facility) (key : Nat) (s : WrapperState),
      ((getauxval_wrapper (some f) key s).2.1).errno = 0 ∧
      ((getauxval_wrapper none key s).2.1).errno = s.errno := by
  intro f key s
  refine ⟨?_, rfl⟩
  by_cases h1 : f.errnoAfter key s.errno = ENOENT
  · rw [wrapper_enoent_eq f key s h1]
  · by_cases h2 : f.errnoAfter key s.errno = 0
    · rw [wrapper_ok_eq f key s h2]
    · rw [wrapper_err_eq f key s h1 h2]

/-- C2: the output location is written if and only if the wrapper returns 1:
on any return other than 1 it holds its entry value, and on return 1
(possible only with the facility present) it holds the facility's value. -/
theorem output_written_iff_success (sym : Option Facility) (key : Nat)
    (s : WrapperState) :
    ((getauxval_wrapper sym key s).1 ≠ 1 →
      ((getauxval_wrapper sym key s).2.1).result = s.result) ∧
    (∀ f : Facility, sym = some f → (getauxval_wrapper sym key s).1 = 1 →
      ((getauxval_wrapper sym key s).2.1).result = f.value key) := by
  constructor
  · intro hne
    match sym with
    | none => rfl
    | some f =>
      by_cases h1 : f.errnoAfter key s.errno = ENOENT
      · rw [wrapper_enoent_eq f key s h1]
      · by_cases h2 : f.errnoAfter key s.errno = 0
        · exact absurd (congrArg Prod.fst (wrapper_ok_eq f key s h2)) hne
        · rw [wrapper_err_eq f key s h1 h2]
  · intro f hf h1
    subst hf
    by_cases he : f.errnoAfter key s.errno = ENOENT
    · rw [wrapper_enoent_eq f key s he] at h1
      simp at h1
    · by_cases h2 : f.errnoAfter key s.errno = 0
      · rw [wrapper_ok_eq f key s h2]
      · rw [wrapper_err_eq f key s he h2] at h1
        simp at h1

/-- C2 (witness): at concrete inputs, a non-success call (facility absent)
leaves the output cell at its entry value 3, and a successful call writes
the facility's value 9. -/
theorem output_written_iff_success_witness :
    ((getauxval_wrapper none 0 ⟨0, 3⟩).2.1).result = 3 ∧
    ((getauxval_wrapper (some ⟨fun _ => 9, fun _ _ => 0⟩) 0 ⟨0, 3⟩).2.1).result = 9 :=
  ⟨(output_written_iff_success none 0 ⟨0, 3⟩).1 (by decide),
   (output_written_iff_success (some ⟨fun _ => 9, fun _ _ => 0⟩) 0 ⟨0, 3⟩).2
     ⟨fun _ => 9, fun _ _ => 0⟩ rfl (by decide)⟩

/-- C3: if the weak symbol is unresolved, the wrapper returns -1 for every
key, the whole state (errno and output location) is untouched, and the
facility is invoked zero times. -/
theorem facility_absent_returns_neg_one (key : Nat) (s : WrapperState) :
    getauxval_wrapper none key s = (-1, s, 0) := rfl

/-- C4: facility present and post-call errno = ENOENT: the wrapper returns
0, the output location keeps its entry value, and errno is 0 afterwards. -/
theorem key_not_found_branch (f : Facility) (key : Nat) (s : WrapperState)
    (h : f.errnoAfter key s.errno = ENOENT) :
    (getauxval_wrapper (some f) key s).1 = 0 ∧
    ((getauxval_wrapper (some f) key s).2.1).result = s.result ∧
    ((getauxval_wrapper (some f) key s).2.1).errno = 0 := by
  rw [wrapper_enoent_eq f key s h]
  exact ⟨rfl, rfl, rfl⟩

/-- C4 (witness): a facility that always sets errno to ENOENT makes the
wrapper return 0, keep the output cell at 7 and leave errno 0. -/
theorem key_not_found_branch_witness :
    (getauxval_wrapper (some ⟨fun _ => 0, fun _ _ => ENOENT⟩) 5 ⟨0, 7⟩).1 = 0 ∧
    ((getauxval_wrapper (some ⟨fun _ => 0, fun _ _ => ENOENT⟩) 5 ⟨0, 7⟩).2.1).result = 7 ∧
    ((getauxval_wrapper (some ⟨fun _ => 0, fun _ _ => ENOENT⟩) 5 ⟨0, 7⟩).2.1).errno = 0 :=
  key_not_found_branch ⟨fun _ => 0, fun _ _ => ENOENT⟩ 5 ⟨0, 7⟩ rfl

/-- C5: facility present and post-call errno nonzero and not ENOENT: the
wrapper returns -2, the output location keeps its entry value, and errno is
0 afterwards. -/
theorem unexpected_error_branch (f : Facility) (key : Nat) (s : WrapperState)
    (h0 : f.errnoAfter key s.errno ≠ 0)
    (hne : f.errnoAfter key s.errno ≠ ENOENT) :
    (getauxval_wrapper (some f) key s).1 = -2 ∧
    ((getauxval_wrapper (some f) key s).2.1).result = s.result ∧
    ((getauxval_wrapper (some f) key s).2.1).errno = 0 := by
  rw [wrapper_err_eq f key s hne h0]
  exact ⟨rfl, rfl, rfl⟩

/-- C5 (witness): a facility that always sets errno to 13 makes the wrapper
return -2, keep the output cell at 7 and leave errno 0. -/
theorem unexpected_error_branch_witness :
    (getauxval_wrapper (some ⟨fun _ => 0, fun _ _ => 13⟩) 5 ⟨0, 7⟩).1 = -2 ∧
    ((getauxval_wrapper (some ⟨fun _ => 0, fun _ _ => 13⟩) 5 ⟨0, 7⟩).2.1).result = 7 ∧
    ((getauxval_wrapper (some ⟨fun _ => 0, fun _ _ => 13⟩) 5 ⟨0, 7⟩).2.1).errno = 0 :=
  unexpected_error_branch ⟨fun _ => 0, fun _ _ => 13⟩ 5 ⟨0, 7⟩ (by decide) (by decide)

/-- C6: facility present and post-call errno = 0: the wrapper returns 1 and
the output location holds the value the facility returned for the key. -/
theorem success_branch (f : Facility) (key : Nat) (s : WrapperState)
    (h : f.errnoAfter key s.errno = 0) :
    (getauxval_wrapper (some f) key s).1 = 1 ∧
    ((getauxval_wrapper (some f) key s).2.1).result = f.value key := by
  rw [wrapper_ok_eq f key s h]
  exact ⟨rfl, rfl⟩

/-- C6 (witness): a facility returning 42 that leaves errno at 0 makes the
wrapper return 1 and write 42 to the output cell. -/
theorem success_branch_witness :
    (getauxval_wrapper (some ⟨fun _ => 42, fun _ _ => 0⟩) 5 ⟨0, 7⟩).1 = 1 ∧
    ((getauxval_wrapper (some ⟨fun _ => 42, fun _ _ => 0⟩) 5 ⟨0, 7⟩).2.1).result = 42 :=
  success_branch ⟨fun _ => 42, fun _ _ => 0⟩ 5 ⟨0, 7⟩ rfl

/-- C7: for every symbol state, key and entry state the wrapper terminates
normally with exactly one of the four codes 1, 0, -1, -2. -/
theorem return_code_in_four (sym : Option Facility) (key : Nat)
    (s : WrapperState) :
    (getauxval_wrapper sym key s).1 = 1 ∨ (getauxval_wrapper sym key s).1 = 0 ∨
    (getauxval_wrapper sym key s).1 = -1 ∨ (getauxval_wrapper sym key s).1 = -2 := by
  match sym with
  | none => exact Or.inr (Or.inr (Or.inl rfl))
  | some f =>
    by_cases h1 : f.errnoAfter key s.errno = ENOENT
    · rw [wrapper_enoent_eq f key s h1]; exact Or.inr (Or.inl rfl)
    · by_cases h2 : f.errnoAfter key s.errno = 0
      · rw [wrapper_ok_eq f key s h2]; exact Or.inl rfl
      · rw [wrapper_err_eq f key s h1 h2]
        exact Or.inr (Or.inr (Or.inr rfl))

/-- C8: with a facility that deterministically succeeds for a key (its
invocation leaves errno at 0 whatever errno held before), two successive
calls of the wrapper with that key both return 1 and both write the same
value, the facility's value for the key, to the output location. -/
theorem probe_idempotent (f : Facility) (key : Nat) (s : WrapperState)
    (hdet : ∀ e : Nat, f.errnoAfter key e = 0) :
    (getauxval_wrapper (some f) key s).1 = 1 ∧
    ((getauxval_wrapper (some f) key s).2.1).result = f.value key ∧
    (getauxval_wrapper (some f) key (getauxval_wrapper (some f) key s).2.1).1 = 1 ∧
    ((getauxval_wrapper (some f) key
        (getauxval_wrapper (some f) key s).2.1).2.1).result = f.value key := by
  rw [wrapper_ok_eq f key s (hdet s.errno)]
  rw [wrapper_ok_eq f key ⟨0, f.value key⟩ (hdet 0)]
  exact ⟨rfl, rfl, rfl, rfl⟩

/-- C8 (witness): the facility that always returns 9 and leaves errno at 0
gives return code 1 and output 9 on both of two successive calls. -/
theorem probe_idempotent_witness :
    (getauxval_wrapper (some ⟨fun _ => 9, fun _ _ => 0⟩) 4 ⟨6, 3⟩).1 = 1 ∧
    ((getauxval_wrapper (some ⟨fun _ => 9, fun _ _ => 0⟩) 4 ⟨6, 3⟩).2.1).result = 9 ∧
    (getauxval_wrapper (some ⟨fun _ => 9, fun _ _ => 0⟩) 4
        (getauxval_wrapper (some ⟨fun _ => 9, fun _ _ => 0⟩) 4 ⟨6, 3⟩).2.1).1 = 1 ∧
    ((getauxval_wrapper (some ⟨fun _ => 9, fun _ _ => 0⟩) 4
        (getauxval_wrapper (some ⟨fun _ => 9, fun _ _ => 0⟩) 4 ⟨6, 3⟩).2.1).2.1).result = 9 :=
  probe_idempotent ⟨fun _ => 9, fun _ _ => 0⟩ 4 ⟨6, 3⟩ (fun _ => rfl)

/-- C9: when the facility is absent, the wrapper leaves errno exactly at its
entry value: the -1 branch neither reads nor writes it. -/
theorem absent_preserves_errno (key : Nat) (s : WrapperState) :
    ((getauxval_wrapper none key s).2.1).errno = s.errno := rfl

/-- C10: the wrapper does not clear errno before invoking the facility, so
if errno is ENOENT at entry and the facility leaves errno unchanged, the
wrapper returns 0 and does not write the output location, even though the
facility returned a value for the key. -/
theorem stale_enoent_masks_success (f : Facility) (key : Nat) (s : WrapperState)
    (hid : f.errnoAfter key s.errno = s.errno) (he : s.errno = ENOENT) :
    (getauxval_wrapper (some f) key s).1 = 0 ∧
    ((getauxval_wrapper (some f) key s).2.1).result = s.result := by
  rw [wrapper_enoent_eq f key s (hid.trans he)]
  exact ⟨rfl, rfl⟩

/-- C10 (witness): a facility returning 42 that leaves errno unchanged,
called while errno holds stale ENOENT, yields return code 0 and an output
cell still holding its entry value 7. -/
theorem stale_enoent_masks_success_witness :
    (getauxval_wrapper (some ⟨fun _ => 42, fun _ e => e⟩) 3 ⟨2, 7⟩).1 = 0 ∧
    ((getauxval_wrapper (some ⟨fun _ => 42, fun _ e => e⟩) 3 ⟨2, 7⟩).2.1).result = 7 :=
  stale_enoent_masks_success ⟨fun _ => 42, fun _ e => e⟩ 3 ⟨2, 7⟩ rfl rfl
